import Mathlib

/-!
Verification of the admin-dashboard core components of the ticket-booking
repository: the generic client-side `DataTable` (sorting, pagination,
search wiring, `src/components/admin/DataTable.tsx`) and the response
normalization layer of the API clients (`UserServiceAPI.request`,
`EventServiceAPI.request`, `ReservationServiceAPI.request`).

The TypeScript source is shallowly embedded: records flowing through the
table are association lists from column keys to integer column values,
component state is an explicit structure, event handlers are state
transformers, and each `request` wrapper is a total function from an
abstract HTTP transport outcome to the returned envelope (or to
`Except`, for the variant that propagates thrown errors).
-/

namespace TicketAdmin

/-! ## Tabular view engine (DataTable.tsx) -/

/-- Records handled by the generic table (`T extends Record<string, any>`):
modelled as association lists from column keys to column values.  Column
values are integers; per the column-descriptor invariant of the data
model, a sortable column key addresses a property present on the record. -/
abbrev Row : Type := List (String × Int)

/-- Property access `row[columnKey]` on a record.  The column-descriptor
contract guarantees the key is present on records of sortable columns;
absent keys default to `0` in the model. -/
def getField (r : Row) (c : String) : Int :=
  ((r.lookup c).getD 0)

/-- Sort direction state: `'asc' | 'desc'`. -/
inductive SortDirection where
  | asc : SortDirection
  | desc : SortDirection
deriving DecidableEq

/-- Comparator passed to `sort` in `DataTable.tsx` lines 61-70:
returns `0` when no sort column is selected, otherwise `-1`/`1`/`0`
according to the native `<` / `>` comparison on the column's values,
with the signs swapped in descending direction. -/
def dataTableCompare (sortColumn : Option String) (dir : SortDirection)
    (a b : Row) : Int :=
  match sortColumn with
  | none => 0
  | some col =>
    let aValue := getField a col
    let bValue := getField b col
    if aValue < bValue then (match dir with | .asc => -1 | .desc => 1)
    else if aValue > bValue then (match dir with | .asc => 1 | .desc => -1)
    else 0

/-- The non-strict order induced by the comparator: `a` may be placed
before `b` exactly when the comparator does not require the swap,
i.e. `compare a b ≤ 0`. -/
def sortLE (sortColumn : Option String) (dir : SortDirection) (a b : Row) : Prop :=
  dataTableCompare sortColumn dir a b ≤ 0

instance sortLE.decRel (sortColumn : Option String) (dir : SortDirection) :
    DecidableRel (sortLE sortColumn dir) :=
  fun _ _ => Int.decLe _ _

/-- `const sortedData = [...data].sort(comparator)`: JavaScript
`Array.prototype.sort` is a stable sort with respect to the comparator,
modelled by the stable insertion sort ordered by `sortLE`. -/
def sortedData (data : List Row) (sortColumn : Option String)
    (dir : SortDirection) : List Row :=
  List.insertionSort (sortLE sortColumn dir) data

/-- `const [itemsPerPage] = useState(10)`. -/
def itemsPerPage : Nat := 10

/-- `const totalPages = Math.ceil(sortedData.length / itemsPerPage)`,
as exact natural-number ceiling division. -/
def totalPages (recordCount : Nat) : Nat :=
  (recordCount + itemsPerPage - 1) / itemsPerPage

/-- `sortedData.slice(startIndex, endIndex)` with
`startIndex = (currentPage - 1) * itemsPerPage` and
`endIndex = startIndex + itemsPerPage` (lines 74-76). -/
def paginatedData (sorted : List Row) (currentPage : Nat) : List Row :=
  let startIndex := (currentPage - 1) * itemsPerPage
  let endIndex := startIndex + itemsPerPage
  (sorted.drop startIndex).take (endIndex - startIndex)

/-- Component state held in the `useState` hooks of `DataTable`. -/
structure TableState where
  currentPage : Nat
  sortColumn : Option String
  sortDirection : SortDirection
  searchQuery : String
deriving DecidableEq

/-- Initial hook values: page 1, no sort column, ascending, empty query. -/
def initialTableState : TableState :=
  { currentPage := 1, sortColumn := none, sortDirection := .asc, searchQuery := "" }

/-- `handleSort` (lines 78-85): toggling the current column flips the
direction, a new column is selected with ascending direction. -/
def handleSort (s : TableState) (columnKey : String) : TableState :=
  if s.sortColumn = some columnKey then
    { s with sortDirection := if s.sortDirection = .asc then .desc else .asc }
  else
    { s with sortColumn := some columnKey, sortDirection := .asc }

/-- `handleSearchChange` (lines 87-91): stores the text, resets the page
to 1 and calls `onSearch?.(value)`.  The second component of the result
is the argument the external `onSearch` callback is invoked with. -/
def handleSearchChange (s : TableState) (value : String) : TableState × String :=
  ({ s with searchQuery := value, currentPage := 1 }, value)

/-- React state setter used by the pagination controls: the requested
page number is stored verbatim, the component applies no clamping. -/
def setCurrentPage (n : Nat) : Nat := n

/-- The four pagination buttons (lines 211-247). -/
inductive PageControl where
  | first : PageControl
  | prev : PageControl
  | next : PageControl
  | last : PageControl

/-- A button's `disabled` attribute: `currentPage === 1` for the
first/previous buttons, `currentPage === totalPages` for next/last. -/
def pageControlDisabled (cp tp : Nat) : PageControl → Bool
  | .first => cp == 1
  | .prev => cp == 1
  | .next => cp == tp
  | .last => cp == tp

/-- The page number a button's `onClick` passes to `setCurrentPage`. -/
def pageControlTarget (cp tp : Nat) : PageControl → Nat
  | .first => 1
  | .prev => cp - 1
  | .next => cp + 1
  | .last => tp

/-- Effect of pressing a pagination button: a disabled button does not
fire, an enabled one stores its target page. -/
def pageControlStep (cp tp : Nat) (c : PageControl) : Nat :=
  if pageControlDisabled cp tp c then cp
  else setCurrentPage (pageControlTarget cp tp c)

/-- State of a table already sorted ascending by the `id` column. -/
def sortedByIdState : TableState :=
  { currentPage := 1, sortColumn := some "id", sortDirection := .asc, searchQuery := "" }

/-! ## Response normalizer (userService.ts / eventService.ts / reservation service) -/

/-- JSON values carried in response bodies. -/
inductive Json where
  | null : Json
  | jbool : Bool → Json
  | jnum : Int → Json
  | jstr : String → Json
  | jarr : List Json → Json
  | jobj : List (String × Json) → Json

/-- A successfully parsed JSON response body, as the duck-typed object the
normalizers inspect: each field the code reads is `none` when the
corresponding property is `undefined` on the raw object. -/
structure RawBody where
  success : Option Bool := none
  message : Option String := none
  data : Option Json := none
  error : Option String := none
  code : Option String := none
  content : Option Json := none

/-- Canonical envelope `ResponseDTO<T>` returned by every `request`
wrapper: `{ success, message, data?, error? }`.  Fields are optional
because a body returned as-is may lack them (`undefined` in JS). -/
structure ResponseDTO where
  success : Option Bool
  message : Option String
  data : Option Json
  error : Option String

/-- A parsed body used directly as the canonical envelope
(`data = await response.json()` followed by `return data`): the extra
`code`/`content` properties are not part of the `ResponseDTO` shape. -/
def RawBody.asResponseDTO (r : RawBody) : ResponseDTO :=
  { success := r.success, message := r.message, data := r.data, error := r.error }

/-- Body of an HTTP response as the normalizers see it.  `jsonBody` is a
response whose `content-type` includes `application/json`; its first
argument is the parse result of `response.json()` (`none` = the promise
rejected) and the second the parse error's message in that case.
`textBody` is any other `content-type`, read with `response.text()`. -/
inductive HttpBody where
  | jsonBody : Option RawBody → String → HttpBody
  | textBody : String → HttpBody

/-- Outcome of `fetch`: either the transport itself fails (the promise
rejects; `some m` is a thrown `Error` with message `m`, `none` a thrown
non-`Error` value), or a response with status, status text and body
arrives. -/
inductive Transport where
  | fail : Option String → Transport
  | respond : Nat → String → HttpBody → Transport

/-- `response.ok`: status in the inclusive range 200-299. -/
def statusOk (status : Nat) : Bool :=
  200 ≤ status && status < 300

/-- JavaScript truthiness of a possibly-undefined string: `undefined`
and the empty string are falsy. -/
def jsTruthy : Option String → Bool
  | none => false
  | some s => !(s == "")

/-- The `||` fallback idiom on strings: `s || d`. -/
def jsOrString (s : Option String) (d : String) : String :=
  if jsTruthy s then s.getD "" else d

/-- Substring test on character lists, for `String.prototype.includes`. -/
def infixChars (sub : List Char) : List Char → Bool
  | [] => sub.isEmpty
  | c :: cs => sub.isPrefixOf (c :: cs) || infixChars sub cs

/-- `s.includes(sub)`. -/
def jsIncludes (s sub : String) : Bool :=
  infixChars sub.data s.data

/-- The connectivity check applied to a caught error's message:
`error.message.includes('Failed to fetch') ||
 error.message.includes('NetworkError')`. -/
def isNetworkErrorMessage (m : String) : Bool :=
  jsIncludes m "Failed to fetch" || jsIncludes m "NetworkError"

/-- Message of the connectivity-failure envelope. -/
def networkErrorMessage : String :=
  "Network error. Please check your connection and API server."

/-- Message returned when `response.json()` fails to parse. -/
def invalidFormatMessage : String :=
  "Invalid response format from server"

/-- `` `HTTP ${response.status}: ${response.statusText}` ``. -/
def httpStatusLine (status : Nat) (statusText : String) : String :=
  "HTTP " ++ toString status ++ ": " ++ statusText

/-- `` `Request failed with status ${response.status}` ``. -/
def requestFailedMessage (status : Nat) : String :=
  "Request failed with status " ++ toString status

/-- The shared `catch` block of `UserServiceAPI.request` and
`ReservationServiceAPI.request`: a network-class `Error` yields the
connectivity envelope, any other `Error` an envelope with its message
(or a generic fallback), a non-`Error` value the unexpected-error
envelope.  Never rethrows. -/
def catchEnvelope : Option String → ResponseDTO
  | some msg =>
    if isNetworkErrorMessage msg then
      { success := some false, message := some networkErrorMessage,
        data := none, error := some networkErrorMessage }
    else
      { success := some false, message := some (jsOrString (some msg) "An error occurred"),
        data := none, error := some (jsOrString (some msg) "An error occurred") }
  | none =>
    { success := some false, message := some "An unexpected error occurred",
      data := none, error := some "An unexpected error occurred" }

/-- `UserServiceAPI.request` (userService.ts lines 44-139, the
returning variant): never throws; non-JSON bodies and JSON parse
failures and non-2xx statuses all collapse into `success:false`
envelopes, a 2xx JSON body is returned as the envelope itself. -/
def userRequest (t : Transport) : ResponseDTO :=
  match t with
  | .fail e => catchEnvelope e
  | .respond status statusText body =>
    match body with
    | .jsonBody none _ =>
      { success := some false, message := some invalidFormatMessage,
        data := none, error := some invalidFormatMessage }
    | .jsonBody (some raw) _ =>
      let data := raw.asResponseDTO
      if !(statusOk status) then
        let errorMsg := jsOrString data.message (jsOrString data.error (requestFailedMessage status))
        { success := some false, message := some errorMsg,
          data := data.data, error := some errorMsg }
      else
        data
    | .textBody text =>
      let errorMsg := jsOrString (some text) (httpStatusLine status statusText)
      { success := some false, message := some errorMsg,
        data := none, error := some errorMsg }

/-- `ReservationServiceAPI.request` (lines 88-212 of the reservation
service file): like `userRequest`, but a non-JSON body on a 2xx status
is wrapped as a success envelope carrying the text, and a JSON body
exposing a `content` field (the alternate `{code, content, message}`
envelope) is remapped to the canonical shape, `success` derived from the
sentinel code `"00"` or from `response.ok`. -/
def reservationRequest (t : Transport) : ResponseDTO :=
  match t with
  | .fail e => catchEnvelope e
  | .respond status statusText body =>
    match body with
    | .jsonBody none _ =>
      { success := some false, message := some invalidFormatMessage,
        data := none, error := some invalidFormatMessage }
    | .jsonBody (some rawData) _ =>
      let data : ResponseDTO :=
        if rawData.content.isSome then
          { success := some (rawData.code == some "00" || statusOk status),
            message := some (jsOrString rawData.message ""),
            data := rawData.content,
            error := if rawData.code == some "00" then none else rawData.message }
        else
          rawData.asResponseDTO
      if !(statusOk status) then
        let errorMsg := jsOrString data.message (jsOrString data.error (requestFailedMessage status))
        { success := some false, message := some errorMsg,
          data := data.data, error := some errorMsg }
      else
        data
    | .textBody text =>
      if statusOk status then
        { success := some true, message := some text,
          data := some (Json.jstr text), error := none }
      else
        let errorMsg := jsOrString (some text) (httpStatusLine status statusText)
        { success := some false, message := some errorMsg,
          data := none, error := some errorMsg }

/-- The `try` body of `EventServiceAPI.request` (eventService.ts lines
96-125): this variant throws an `Error` on a non-JSON body and on a
non-2xx status, and lets a `response.json()` rejection escape. -/
def eventRequestInner (t : Transport) : Except (Option String) ResponseDTO :=
  match t with
  | .fail e => .error e
  | .respond status statusText body =>
    match body with
    | .jsonBody none parseErr => .error (some parseErr)
    | .jsonBody (some raw) _ =>
      let data := raw.asResponseDTO
      if !(statusOk status) then
        .error (some (jsOrString data.message (jsOrString data.error (requestFailedMessage status))))
      else
        .ok data
    | .textBody text =>
      .error (some (jsOrString (some text) (httpStatusLine status statusText)))

/-- The `catch` block of `EventServiceAPI.request` (lines 126-135): it
rethrows — a network-class message is replaced by the connectivity
message, every other `Error` propagates unchanged, a non-`Error` value
becomes a generic `Error`. -/
def eventCatchMessage : Option String → String
  | some msg => if isNetworkErrorMessage msg then networkErrorMessage else msg
  | none => "An unexpected error occurred"

/-- `EventServiceAPI.request` (eventService.ts lines 92-136): the
exception-propagating normalizer variant.  `Except.error m` models a
thrown `Error` with message `m` escaping to the caller. -/
def eventRequest (t : Transport) : Except String ResponseDTO :=
  match eventRequestInner t with
  | .ok d => .ok d
  | .error e => .error (eventCatchMessage e)

/-! ## Helper lemmas about the sorting embedding -/

/-- With no sort column the comparator-induced order holds between any
two rows. -/
theorem sortLE_none (dir : SortDirection) (a b : Row) : sortLE none dir a b := by
  simp [sortLE, dataTableCompare]

/-- With no sort column the stable sort is the identity. -/
theorem insertionSort_none_eq (dir : SortDirection) :
    ∀ data : List Row, sortedData data none dir = data := by
  intro data
  induction data with
  | nil => rfl
  | cons d ds ih =>
    show List.orderedInsert _ d (sortedData ds none dir) = d :: ds
    rw [ih]
    cases ds with
    | nil => rfl
    | cons x xs => exact List.orderedInsert_of_le _ xs (sortLE_none dir d x)

/-- The ascending comparator order is the value order on the column. -/
theorem sortLE_asc_iff (c : String) (a b : Row) :
    sortLE (some c) .asc a b ↔ getField a c ≤ getField b c := by
  unfold sortLE dataTableCompare
  dsimp only
  split_ifs with h1 h2 <;> simp <;> omega

/-- The descending comparator order is the reversed value order. -/
theorem sortLE_desc_iff (c : String) (a b : Row) :
    sortLE (some c) .desc a b ↔ getField b c ≤ getField a c := by
  unfold sortLE dataTableCompare
  dsimp only
  split_ifs with h1 h2 <;> simp <;> omega

/-- Ascending sort output is nondecreasing on the column's values. -/
theorem sorted_asc (data : List Row) (c : String) :
    List.Sorted (fun a b => getField a c ≤ getField b c) (sortedData data (some c) .asc) := by
  haveI : IsTotal Row (sortLE (some c) .asc) :=
    ⟨fun a b => by rw [sortLE_asc_iff, sortLE_asc_iff]; omega⟩
  haveI : IsTrans Row (sortLE (some c) .asc) :=
    ⟨fun a b d hab hbd => by
      rw [sortLE_asc_iff] at hab hbd ⊢; omega⟩
  have h := List.sorted_insertionSort (sortLE (some c) .asc) data
  exact h.imp (fun hab => (sortLE_asc_iff c _ _).mp hab)

/-- Descending sort output is nonincreasing on the column's values. -/
theorem sorted_desc (data : List Row) (c : String) :
    List.Sorted (fun a b => getField b c ≤ getField a c) (sortedData data (some c) .desc) := by
  haveI : IsTotal Row (sortLE (some c) .desc) :=
    ⟨fun a b => by rw [sortLE_desc_iff, sortLE_desc_iff]; omega⟩
  haveI : IsTrans Row (sortLE (some c) .desc) :=
    ⟨fun a b d hab hbd => by
      rw [sortLE_desc_iff] at hab hbd ⊢; omega⟩
  have h := List.sorted_insertionSort (sortLE (some c) .desc) data
  exact h.imp (fun hab => (sortLE_desc_iff c _ _).mp hab)

/-- When the column's values are pairwise distinct on the input list,
the descending sort is exactly the reverse of the ascending sort. -/
theorem desc_eq_reverse_asc (data : List Row) (c : String)
    (hdist : List.Pairwise (fun a b => getField a c ≠ getField b c) data) :
    sortedData data (some c) .desc = (sortedData data (some c) .asc).reverse := by
  have permAsc : List.Perm (sortedData data (some c) .asc) data := List.perm_insertionSort _ data
  have permDesc : List.Perm (sortedData data (some c) .desc) data := List.perm_insertionSort _ data
  have hsym : ∀ {x y : Row}, getField x c ≠ getField y c → getField y c ≠ getField x c :=
    fun h h2 => h h2.symm
  have distDesc : List.Pairwise (fun a b => getField a c ≠ getField b c)
      (sortedData data (some c) .desc) :=
    (permDesc.pairwise_iff hsym).mpr hdist
  have distAsc : List.Pairwise (fun a b => getField a c ≠ getField b c)
      (sortedData data (some c) .asc) :=
    (permAsc.pairwise_iff hsym).mpr hdist
  have strictDesc : List.Pairwise (fun a b => getField b c < getField a c)
      (sortedData data (some c) .desc) :=
    ((sorted_desc data c).and distDesc).imp (fun h => by omega)
  have strictAsc : List.Pairwise (fun a b => getField b c < getField a c)
      (sortedData data (some c) .asc).reverse := by
    rw [List.pairwise_reverse]
    exact ((sorted_asc data c).and distAsc).imp (fun h => by omega)
  have hperm : List.Perm (sortedData data (some c) .desc)
      ((sortedData data (some c) .asc).reverse) :=
    permDesc.trans (permAsc.symm.trans (sortedData data (some c) .asc).reverse_perm.symm)
  haveI : IsAntisymm Row (fun a b => getField b c < getField a c) :=
    ⟨fun a b h1 h2 => absurd h1 (by omega)⟩
  exact List.eq_of_perm_of_sorted hperm strictDesc strictAsc

/-- Concatenating `k` consecutive `P`-sized slices of a list of length
at most `k * P` reconstructs the list. -/
theorem join_chunks {α : Type} (P : Nat) :
    ∀ (k : Nat) (l : List α), l.length ≤ k * P →
      (((List.range k).map fun i => (l.drop (i * P)).take P)).flatten = l := by
  intro k
  induction k with
  | zero =>
    intro l hl
    simp only [Nat.zero_mul, Nat.le_zero] at hl
    simp [List.eq_nil_of_length_eq_zero hl]
  | succ k ih =>
    intro l hl
    rw [List.range_succ_eq_map, List.map_cons, List.flatten_cons, List.map_map]
    have hmap : ((List.range k).map ((fun i => (l.drop (i * P)).take P) ∘ Nat.succ)) =
        ((List.range k).map fun i => ((l.drop P).drop (i * P)).take P) := by
      refine List.map_congr_left (fun i _ => ?_)
      simp only [Function.comp]
      rw [List.drop_drop]
      congr 2
      rw [Nat.succ_mul]
      ring
    rw [Nat.succ_mul] at hl
    rw [hmap, ih (l.drop P) (by rw [List.length_drop]; omega)]
    simp only [Nat.zero_mul, List.drop_zero]
    exact List.take_append_drop P l

/-- The page count computed by the component is the ceiling of the exact
rational division of the record count by the page size. -/
theorem totalPages_eq_ceil (n : Nat) :
    (totalPages n : ℤ) = ⌈(n : ℚ) / (itemsPerPage : ℚ)⌉ := by
  have h10 : (0:ℚ) < (itemsPerPage : ℚ) := by norm_num [itemsPerPage]
  have hub : n ≤ totalPages n * itemsPerPage := by
    unfold totalPages itemsPerPage
    omega
  have hlb : totalPages n * itemsPerPage < n + itemsPerPage := by
    unfold totalPages itemsPerPage
    omega
  rw [eq_comm, Int.ceil_eq_iff]
  constructor
  · rw [lt_div_iff₀ h10]
    have hc : ((totalPages n * itemsPerPage : ℕ) : ℚ) < ((n + itemsPerPage : ℕ) : ℚ) := by
      exact_mod_cast hlb
    push_cast at hc ⊢
    linarith
  · rw [div_le_iff₀ h10]
    have hc : ((n : ℕ) : ℚ) ≤ ((totalPages n * itemsPerPage : ℕ) : ℚ) := by
      exact_mod_cast hub
    push_cast at hc ⊢
    linarith

/-- A page slice at page `p + 1` is the `p`-th `itemsPerPage`-sized chunk. -/
theorem paginatedData_chunk (sorted : List Row) (p : Nat) :
    paginatedData sorted (p + 1) = (sorted.drop (p * itemsPerPage)).take itemsPerPage := by
  unfold paginatedData
  simp

/-! ## Claim theorems -/

/-- C2 (amended): for every record list and sortable column, the full
sorted sequence is monotonic on the column's values in the chosen
direction; flipping the direction yields exactly the reverse sequence
whenever the column's values are pairwise distinct in the list (with
duplicate values the stable sort keeps tied records in their original
relative order in both directions, so the record-level reverse law can
fail). -/
theorem dataTable_sort_monotone_and_reverse_on_distinct :
    ∀ (data : List Row) (c : String),
      List.Sorted (fun a b => getField a c ≤ getField b c) (sortedData data (some c) .asc) ∧
      List.Sorted (fun a b => getField b c ≤ getField a c) (sortedData data (some c) .desc) ∧
      (List.Pairwise (fun a b => getField a c ≠ getField b c) data →
        sortedData data (some c) .desc = (sortedData data (some c) .asc).reverse) :=
  fun data c => ⟨sorted_asc data c, sorted_desc data c, desc_eq_reverse_asc data c⟩

/-- C2 (witness): on two records with distinct `id` values, the
descending sort is the reverse of the ascending sort. -/
theorem dataTable_sort_reverse_on_distinct_witness :
    sortedData [[("id", (1:Int))], [("id", 2)]] (some "id") .desc =
      (sortedData [[("id", (1:Int))], [("id", 2)]] (some "id") .asc).reverse :=
  (dataTable_sort_monotone_and_reverse_on_distinct
    [[("id", (1:Int))], [("id", 2)]] "id").2.2 (by decide)

/-- C2 (counterexample): two records that tie on the sort column but
differ elsewhere — the stable sort leaves both directions in original
order, so the descending sequence is not the reverse of the ascending
one, refuting the reverse law for lists with duplicate column values. -/
theorem dataTable_sort_reverse_fails_on_duplicates :
    sortedData [[("id", (1:Int)), ("x", 10)], [("id", 1), ("x", 20)]] (some "id") .desc ≠
      (sortedData [[("id", (1:Int)), ("x", 10)], [("id", 1), ("x", 20)]] (some "id") .asc).reverse := by
  decide

/-- C3: `totalPages` is the ceiling of the record count divided by the
page size, and concatenating the visible slices of pages `1` through
`totalPages` in order reconstructs the full sorted sequence with no
record duplicated or omitted. -/
theorem dataTable_pagination_reconstructs :
    ∀ (sorted : List Row),
      (totalPages sorted.length : ℤ) = ⌈(sorted.length : ℚ) / (itemsPerPage : ℚ)⌉ ∧
      (((List.range (totalPages sorted.length)).map fun p =>
          paginatedData sorted (p + 1))).flatten = sorted := by
  intro sorted
  refine ⟨totalPages_eq_ceil sorted.length, ?_⟩
  rw [List.map_congr_left (fun p _ => paginatedData_chunk sorted p)]
  refine join_chunks itemsPerPage (totalPages sorted.length) sorted ?_
  unfold totalPages itemsPerPage
  omega

/-- C6 (counterexample): with 25 records there are 3 pages, but the
component has no clamping `goToPage` — the state setter stores a
requested page 5 verbatim (not 3), and the visible slice at page 5 is
out of range (empty), refuting the claimed clamp to `[1, totalPages]`. -/
theorem directPageRequest_not_clamped :
    totalPages 25 = 3 ∧ setCurrentPage 5 = 5 ∧ setCurrentPage 5 ≠ 3 ∧
      paginatedData ((List.range 25).map fun i => [("id", (i : Int))]) 5 = [] :=
  ⟨rfl, rfl, by decide, by decide⟩

/-- C6 (amended): the component offers no `goToPage(n)` with clamping;
pages change only through the first/previous/next/last controls, whose
out-of-range presses are disabled rather than clamped.  From any
`currentPage` in `[1, totalPages]` every control press lands in
`[1, totalPages]`, and with 25 records and page size 10 there are 3
pages, so no control can reach page 5. -/
theorem pageControls_stay_in_range :
    totalPages 25 = 3 ∧
    ∀ (cp tp : Nat) (c : PageControl), 1 ≤ cp → cp ≤ tp →
      1 ≤ pageControlStep cp tp c ∧ pageControlStep cp tp c ≤ tp := by
  refine ⟨rfl, ?_⟩
  intro cp tp c h1 h2
  unfold pageControlStep pageControlDisabled pageControlTarget setCurrentPage
  cases c <;> dsimp only <;> split <;> rename_i h <;>
    simp only [beq_iff_eq] at h <;> omega

/-- C6 (witness): from page 1 of 3, the next-page control lands in
range. -/
theorem pageControls_stay_in_range_witness :
    1 ≤ pageControlStep 1 3 .next ∧ pageControlStep 1 3 .next ≤ 3 :=
  pageControls_stay_in_range.2 1 3 .next (by decide) (by decide)

/-- C8: `setSort` on the current sort column flips the direction and
changes nothing else; on a different column it selects that column with
ascending direction; the initial state has no sort column and ascending
direction. -/
theorem handleSort_toggles_or_resets :
    ∀ (s : TableState) (k : String),
      (s.sortColumn = some k →
        (handleSort s k).sortColumn = s.sortColumn ∧
        (handleSort s k).sortDirection ≠ s.sortDirection ∧
        (handleSort s k).currentPage = s.currentPage ∧
        (handleSort s k).searchQuery = s.searchQuery) ∧
      (s.sortColumn ≠ some k →
        (handleSort s k).sortColumn = some k ∧
        (handleSort s k).sortDirection = .asc) ∧
      initialTableState.sortColumn = none ∧
      initialTableState.sortDirection = .asc := by
  intro s k
  refine ⟨?_, ?_, rfl, rfl⟩
  · intro h
    unfold handleSort
    rw [if_pos h]
    refine ⟨rfl, ?_, rfl, rfl⟩
    show (if s.sortDirection = .asc then SortDirection.desc else .asc) ≠ s.sortDirection
    cases hd : s.sortDirection <;> simp
  · intro h
    unfold handleSort
    rw [if_neg h]
    exact ⟨rfl, rfl⟩

/-- C8 (witness): toggling the already-selected `id` column flips the
direction away from ascending, and sorting a fresh table by `id`
selects that column. -/
theorem handleSort_toggles_or_resets_witness :
    (handleSort sortedByIdState "id").sortDirection ≠ SortDirection.asc ∧
    (handleSort initialTableState "id").sortColumn = some "id" := by
  constructor
  · exact ((handleSort_toggles_or_resets sortedByIdState "id").1 rfl).2.1
  · exact ((handleSort_toggles_or_resets initialTableState "id").2.1 (by decide)).1

/-- C9: `setSearchQuery` stores the text for the controlled input,
resets the page to 1, forwards the text to the external `onSearch`
callback, and filters nothing itself: the full sorted record sequence
the engine displays is unchanged. -/
theorem handleSearchChange_resets_page_and_delegates :
    ∀ (s : TableState) (value : String) (data : List Row),
      (handleSearchChange s value).1.searchQuery = value ∧
      (handleSearchChange s value).1.currentPage = 1 ∧
      (handleSearchChange s value).2 = value ∧
      (handleSearchChange s value).1.sortColumn = s.sortColumn ∧
      (handleSearchChange s value).1.sortDirection = s.sortDirection ∧
      sortedData data (handleSearchChange s value).1.sortColumn
          (handleSearchChange s value).1.sortDirection =
        sortedData data s.sortColumn s.sortDirection :=
  fun _ _ _ => ⟨rfl, rfl, rfl, rfl, rfl, rfl⟩

/-- C10: with no sort column selected (the initial state) the comparator
returns 0 on every pair and the sort step is the identity, for either
direction value. -/
theorem noSortColumn_sort_is_identity :
    ∀ (data : List Row) (dir : SortDirection),
      (∀ a b : Row, dataTableCompare none dir a b = 0) ∧
      sortedData data none dir = data :=
  fun data dir => ⟨fun _ _ => rfl, insertionSort_none_eq dir data⟩

/-- C1: the never-throws contract fails in the event-service normalizer
variant — on an HTTP 500 JSON response whose body flags
`success:false`, `EventServiceAPI.request` throws an `Error` carrying
the body's message instead of returning a `success:false` envelope. -/
theorem eventRequest_throws_on_http_failure :
    eventRequest (.respond 500 "Internal Server Error"
      (.jsonBody (some { success := some false, message := some "Internal error" }) "")) =
    .error "Internal error" := rfl

/-- C4: a JSON body of the alternate envelope shape
`{code:"00", content:p, message:msg}` on an HTTP 200 response is
remapped by the reservation-service normalizer to the canonical
`{success:true, data:p, message:msg}` (for any non-empty message). -/
theorem reservation_normalizes_alternate_envelope :
    ∀ (p : Json) (msg : String), msg ≠ "" →
      reservationRequest (.respond 200 "OK"
        (.jsonBody (some { code := some "00", content := some p, message := some msg }) "")) =
      { success := some true, message := some msg, data := some p, error := none } := by
  intro p msg h
  unfold reservationRequest
  simp [statusOk, jsOrString, jsTruthy, h]

/-- C4 (witness): the claim's concrete instance
`{code:"00", content:{foo:1}, message:"ok"}` normalizes to
`{success:true, data:{foo:1}, message:"ok"}`. -/
theorem reservation_normalizes_alternate_envelope_witness :
    reservationRequest (.respond 200 "OK"
      (.jsonBody (some { code := some "00", content := some (Json.jobj [("foo", Json.jnum 1)]),
                         message := some "ok" }) "")) =
    { success := some true, message := some "ok",
      data := some (Json.jobj [("foo", Json.jnum 1)]), error := none } :=
  reservation_normalizes_alternate_envelope (Json.jobj [("foo", Json.jnum 1)]) "ok" (by decide)

/-- C5 (counterexample): a non-JSON body on an HTTP-success status —
the user-service normalizer returns `success:false`, not the claimed
`{success:true, message:text}`. -/
theorem userRequest_nonjson_ok_still_failure :
    statusOk 200 = true ∧
    (userRequest (.respond 200 "OK" (.textBody "hello"))).success = some false :=
  ⟨rfl, rfl⟩

/-- C5 (amended): non-JSON bodies are treated as plain text.  The
reservation-service normalizer wraps the text as a success envelope on
HTTP-success statuses and as a failure envelope (text, or the status
line when the text is empty) otherwise; the user-service normalizer
returns the failure envelope for every non-JSON body regardless of
status.  In particular a non-JSON HTTP 500 with body `"boom"` yields
`{success:false, message:"boom"}`. -/
theorem nonjson_plain_text_normalization :
    ∀ (status : Nat) (statusText text : String),
      reservationRequest (.respond status statusText (.textBody text)) =
        (if statusOk status then
          { success := some true, message := some text,
            data := some (Json.jstr text), error := none }
        else
          { success := some false,
            message := some (jsOrString (some text) (httpStatusLine status statusText)),
            data := none,
            error := some (jsOrString (some text) (httpStatusLine status statusText)) }) ∧
      userRequest (.respond status statusText (.textBody text)) =
        { success := some false,
          message := some (jsOrString (some text) (httpStatusLine status statusText)),
          data := none,
          error := some (jsOrString (some text) (httpStatusLine status statusText)) } ∧
      reservationRequest (.respond 500 "Internal Server Error" (.textBody "boom")) =
        { success := some false, message := some "boom", data := none, error := some "boom" } := by
  intro status statusText text
  refine ⟨?_, rfl, rfl⟩
  unfold reservationRequest
  rfl

/-- C7: every transport failure is recovered by both returning
normalizer variants into a `success:false` envelope (nothing is
thrown), and a connectivity-class error message (one containing
`Failed to fetch` or `NetworkError`, as browsers raise for network
failures) produces the dedicated network-error envelope. -/
theorem request_recovers_transport_failure :
    (∀ e : Option String,
      (reservationRequest (.fail e)).success = some false ∧
      (userRequest (.fail e)).success = some false) ∧
    (∀ m : String, isNetworkErrorMessage m = true →
      reservationRequest (.fail (some m)) =
        { success := some false, message := some networkErrorMessage,
          data := none, error := some networkErrorMessage } ∧
      userRequest (.fail (some m)) =
        { success := some false, message := some networkErrorMessage,
          data := none, error := some networkErrorMessage }) := by
  constructor
  · intro e
    cases e with
    | none => exact ⟨rfl, rfl⟩
    | some m =>
      constructor <;> (show (catchEnvelope (some m)).success = some false) <;>
        simp only [catchEnvelope] <;> split <;> rfl
  · intro m h
    constructor <;> (show catchEnvelope (some m) = _) <;>
      simp only [catchEnvelope] <;> rw [if_pos h]

/-- C7 (witness): the connectivity failure browsers report as
`Failed to fetch` yields the network-error envelope. -/
theorem request_recovers_transport_failure_witness :
    reservationRequest (.fail (some "Failed to fetch")) =
      { success := some false, message := some networkErrorMessage,
        data := none, error := some networkErrorMessage } :=
  (request_recovers_transport_failure.2 "Failed to fetch" (by decide)).1

end TicketAdmin
